import Mathlib

/-!
Shallow embedding of the combat/resource core of the Rob of the Shire
repository (src/character.py, src/enemy.py, src/combat.py, src/config.py).
Python ints are modelled as Lean Int, Python floats as exact rationals,
Python floor division (//) as Int.fdiv, and int() truncation as pyInt.
Randomness is made explicit: every random.random() call becomes a rational
roll parameter in [0,1).
-/

namespace RobShire

/-- Python int() applied to a rational: truncation toward zero. -/
def pyInt (q : ℚ) : Int := if 0 ≤ q then ⌊q⌋ else ⌈q⌉

-- ===========================================================================
-- config.py constants (GameConfig)
-- ===========================================================================

def DEFAULT_HEALTH : Int := 100
def DEFAULT_MANA : Int := 50
def DEFAULT_STAMINA : Int := 100
def BASE_XP_REQUIREMENT : Nat := 100
def MAX_LEVEL : Nat := 100
def STAT_POINTS_PER_LEVEL : Int := 5
def BASE_CRIT_CHANCE : ℚ := 5/100
def CRIT_DAMAGE_MULTIPLIER : ℚ := 3/2
def DODGE_BASE_CHANCE : ℚ := 1/10

inductive CharacterClass
  | warrior | mage | rogue | ranger
deriving DecidableEq, Repr

/-- config.py ClassStats record. -/
structure ClassStats where
  healthBonus : Int
  manaBonus : Int
  staminaBonus : Int
  strengthBonus : Int
  agilityBonus : Int
  intelligenceBonus : Int
deriving DecidableEq, Repr

/-- config.py CLASS_STATS table. -/
def CLASS_STATS : CharacterClass → ClassStats
  | .warrior => ⟨30, 0, 20, 5, 2, 1⟩
  | .mage => ⟨0, 50, 10, 1, 2, 5⟩
  | .rogue => ⟨10, 20, 30, 2, 5, 2⟩
  | .ranger => ⟨15, 25, 25, 3, 4, 3⟩

-- ===========================================================================
-- character.py : Stats, equipment, Character state
-- ===========================================================================

/-- character.py Stats dataclass (field defaults 10,10,10,10,5). -/
structure Stats where
  strength : Int
  agility : Int
  intelligence : Int
  vitality : Int
  luck : Int
deriving DecidableEq, Repr

/-- A weapon item record: only the "damage" key matters to the combat core
(weapon.get("damage", 5)). -/
structure Weapon where
  damage : Option Int
deriving DecidableEq, Repr

/-- Character state: the fields of character.py Character the combat and
progression core reads and writes. Equipment is carried as the totals
Equipment.get_total_stats produces (health_bonus, mana_bonus, defense)
plus the equipped weapon. -/
structure Character where
  level : Nat
  experience : Int
  maxHealth : Int
  health : Int
  maxMana : Int
  mana : Int
  maxStamina : Int
  stamina : Int
  stats : Stats
  availableStatPoints : Int
  skillPoints : Int
  healthBonus : Int
  manaBonus : Int
  equipDefense : Int
  equipWeapon : Option Weapon
  isDefending : Bool
deriving DecidableEq, Repr

/-- Character.__init__ : class bonuses are added to the provided pool sizes,
pools start full, stats start at 10 + class bonus (vitality 10, luck 5). -/
def characterInit (cls : CharacterClass) (health mana stamina : Int)
    (level : Nat) (experience : Int) : Character :=
  let cs := CLASS_STATS cls
  { level := level
    experience := experience
    maxHealth := health + cs.healthBonus
    health := health + cs.healthBonus
    maxMana := mana + cs.manaBonus
    mana := mana + cs.manaBonus
    maxStamina := stamina + cs.staminaBonus
    stamina := stamina + cs.staminaBonus
    stats := ⟨10 + cs.strengthBonus, 10 + cs.agilityBonus,
              10 + cs.intelligenceBonus, 10, 5⟩
    availableStatPoints := 0
    skillPoints := 0
    healthBonus := 0
    manaBonus := 0
    equipDefense := 0
    equipWeapon := none
    isDefending := false }

/-- The health property setter: clamps to [0, _max_health]. -/
def setHealth (c : Character) (v : Int) : Character :=
  { c with health := max 0 (min v c.maxHealth) }

/-- The mana property setter: clamps to [0, _max_mana]. -/
def setMana (c : Character) (v : Int) : Character :=
  { c with mana := max 0 (min v c.maxMana) }

/-- The stamina property setter: clamps to [0, _max_stamina]. -/
def setStamina (c : Character) (v : Int) : Character :=
  { c with stamina := max 0 (min v c.maxStamina) }

/-- The max_health property: _max_health + equipment health_bonus. -/
def maxHealthProp (c : Character) : Int := c.maxHealth + c.healthBonus

/-- The max_mana property: _max_mana + equipment mana_bonus. -/
def maxManaProp (c : Character) : Int := c.maxMana + c.manaBonus

/-- Character.get_defense: equipment defense + vitality // 3, doubled while
defending. -/
def getDefense (c : Character) : Int :=
  let d := c.equipDefense + Int.fdiv c.stats.vitality 3
  if c.isDefending then d * 2 else d

/-- Character.get_crit_chance under exact rational arithmetic: the
idealized value of BASE_CRIT_CHANCE + luck/100 + agility/200. The
binary64 evaluation the interpreter actually performs is
getCritChanceFloat below; the exact value is used where only threshold
comparisons against a roll matter. -/
def getCritChance (c : Character) : ℚ :=
  BASE_CRIT_CHANCE + (c.stats.luck : ℚ) / 100 + (c.stats.agility : ℚ) / 200

/-- Character.get_dodge_chance: DODGE_BASE_CHANCE + agility/100. -/
def getDodgeChance (c : Character) : ℚ :=
  DODGE_BASE_CHANCE + (c.stats.agility : ℚ) / 100

/-- Round to the nearest integer with ties to even — the IEEE-754 default
rounding — on exact rationals. -/
def rne (x : ℚ) : ℤ :=
  let n := ⌊x⌋
  if x - n < 1/2 then n
  else if 1/2 < x - n then n + 1
  else if n % 2 = 0 then n else n + 1

/-- Round a positive rational to the nearest IEEE-754 binary64 value
(normal range, round-to-nearest ties-to-even): the 53-bit significand is
selected by rne at the scale fixed by the binary exponent Int.log 2 q. -/
def roundB64pos (q : ℚ) : ℚ :=
  if q ≤ 0 then 0
  else (rne (q * (2:ℚ) ^ (52 - Int.log 2 q)) : ℚ) * (2:ℚ) ^ (Int.log 2 q - 52)

/-- Round a rational to the nearest IEEE-754 binary64 value (normal
range). -/
def roundB64 (q : ℚ) : ℚ :=
  if q < 0 then -roundB64pos (-q) else roundB64pos q

/-- get_crit_chance as the interpreter evaluates it in IEEE-754 binary64:
the 0.05 literal is the double nearest 5/100, each int/int true division
is correctly rounded, and the two additions are left-associated, each
result rounded to binary64. -/
def getCritChanceFloat (c : Character) : ℚ :=
  roundB64 (roundB64 (roundB64 (5/100) + roundB64 ((c.stats.luck : ℚ) / 100))
    + roundB64 ((c.stats.agility : ℚ) / 200))

/-- Character.get_attack_damage: weapon defaults to the equipped one;
base damage is the "damage" value of the weapon record (default 5), 5 unarmed;
plus strength // 2. -/
def getAttackDamage (c : Character) (weapon : Option Weapon) : Int :=
  let w := match weapon with
    | some wp => some wp
    | none => c.equipWeapon
  let baseDamage := match w with
    | some wp => wp.damage.getD 5
    | none => 5
  baseDamage + Int.fdiv c.stats.strength 2

/-- Character.take_damage. The dodge roll is the random.random() value; a
dodge happens when it is below get_dodge_chance. Returns the new state and
the actual damage returned by the method. -/
def characterTakeDamage (c : Character) (dodgeRoll : ℚ) (amount : Int) :
    Character × Int :=
  let defense := getDefense c
  let actual := max 1 (amount - defense)
  if dodgeRoll < getDodgeChance c then (c, 0)
  else (setHealth c (c.health - actual), actual)

/-- Character.heal: routes through the health setter. -/
def characterHeal (c : Character) (amount : Int) : Character :=
  setHealth c (c.health + amount)

/-- Character.restore_mana: routes through the mana setter. -/
def restoreMana (c : Character) (amount : Int) : Character :=
  setMana c (c.mana + amount)

/-- Character._use_potion resource effects: heal, mana and stamina amounts
are applied in that order through the setters when the key is present. -/
def usePotion (c : Character) (healAmt manaAmt stamAmt : Option Int) :
    Character :=
  let c1 := match healAmt with
    | some v => setHealth c (c.health + v)
    | none => c
  let c2 := match manaAmt with
    | some v => setMana c1 (c1.mana + v)
    | none => c1
  match stamAmt with
  | some v => setStamina c2 (c2.stamina + v)
  | none => c2

/-- Character.full_restore: currents are set to the max_health / max_mana
properties (which include equipment bonuses) and to _max_stamina. -/
def fullRestore (c : Character) : Character :=
  { c with health := maxHealthProp c
           mana := maxManaProp c
           stamina := c.maxStamina }

/-- Character._level_up: +1 level, stat and skill point grants, resource max
growth from current stats (integer floor division), full refill of the
private pools. -/
def levelUp (c : Character) : Character :=
  let maxH := c.maxHealth + 10 + Int.fdiv c.stats.vitality 5
  let maxM := c.maxMana + 5 + Int.fdiv c.stats.intelligence 5
  let maxS := c.maxStamina + 5 + Int.fdiv c.stats.agility 5
  { c with level := c.level + 1
           availableStatPoints := c.availableStatPoints + STAT_POINTS_PER_LEVEL
           skillPoints := c.skillPoints + 1
           maxHealth := maxH
           health := maxH
           maxMana := maxM
           mana := maxM
           maxStamina := maxS
           stamina := maxS }

/-- Character.xp_to_next_level: int(100 * 1.5 ** (level - 1)) in exact
rational arithmetic, i.e. floor(100 * 3^(level-1) / 2^(level-1)). -/
def xpToNextLevel (level : Nat) : Int :=
  Int.ofNat ((BASE_XP_REQUIREMENT * 3 ^ (level - 1)) / 2 ^ (level - 1))

/-- The while loop of Character.gain_experience, with explicit fuel. The
guard keeps level < MAX_LEVEL and each pass increments level, so fuel
MAX_LEVEL - level makes the fuel version agree with the unbounded loop. -/
def levelLoop : Nat → Character → List Nat → Character × List Nat
  | 0, c, gained => (c, gained)
  | fuel + 1, c, gained =>
    if c.experience ≥ xpToNextLevel c.level ∧ c.level < MAX_LEVEL then
      let c' := levelUp { c with experience := c.experience - xpToNextLevel c.level }
      levelLoop fuel c' (gained ++ [c'.level])
    else (c, gained)

/-- Character.gain_experience: no-op for amount ≤ 0, otherwise add and run
the level-up loop, returning the levels gained. -/
def gainExperience (c : Character) (amount : Int) : Character × List Nat :=
  if amount ≤ 0 then (c, [])
  else levelLoop (MAX_LEVEL - c.level) { c with experience := c.experience + amount } []

-- ===========================================================================
-- character.py : stat allocation
-- ===========================================================================

/-- Outcome of Character.allocate_stat_point: success, or one of the two
distinct failure reports the method prints before returning False. -/
inductive AllocResult
  | ok | noPoints | invalidStat
deriving DecidableEq, Repr

def validStats : List String :=
  ["strength", "agility", "intelligence", "vitality", "luck"]

/-- ASCII lowercase of one character (the fragment of str.lower() relevant
to stat names). -/
def charLower (c : Char) : Char :=
  if 65 ≤ c.toNat ∧ c.toNat ≤ 90 then Char.ofNat (c.toNat + 32) else c

/-- str.lower() on ASCII strings. -/
def pyLower (s : String) : String := ⟨s.data.map charLower⟩

/-- getattr on the Stats dataclass by field name. -/
def getStat (s : Stats) (name : String) : Int :=
  if name = "strength" then s.strength
  else if name = "agility" then s.agility
  else if name = "intelligence" then s.intelligence
  else if name = "vitality" then s.vitality
  else if name = "luck" then s.luck
  else 0

/-- setattr on the Stats dataclass by field name. -/
def setStat (s : Stats) (name : String) (v : Int) : Stats :=
  if name = "strength" then { s with strength := v }
  else if name = "agility" then { s with agility := v }
  else if name = "intelligence" then { s with intelligence := v }
  else if name = "vitality" then { s with vitality := v }
  else if name = "luck" then { s with luck := v }
  else s

/-- Character.allocate_stat_point: reports no-points when none are
available, lowercases the stat name, reports an invalid stat distinctly,
otherwise bumps the stat and spends one point. -/
def allocateStatPoint (c : Character) (statName : String) :
    Character × AllocResult :=
  if c.availableStatPoints ≤ 0 then (c, .noPoints)
  else
    let s := pyLower statName
    if s ∈ validStats then
      ({ c with stats := setStat c.stats s (getStat c.stats s + 1)
                availableStatPoints := c.availableStatPoints - 1 }, .ok)
    else (c, .invalidStat)

-- ===========================================================================
-- character.py : serialization (Character.from_dict)
-- ===========================================================================

/-- Equipment carried as the totals Equipment.get_total_stats yields plus
the equipped weapon, which is all the combat core consumes. -/
structure EquipTotals where
  healthBonus : Int
  manaBonus : Int
  defense : Int
  weapon : Option Weapon
deriving DecidableEq, Repr

/-- The save dictionary consumed by Character.from_dict: an optional entry
per key it reads (name and item lists are irrelevant to the pool claims).
The character_class field stands for the already-resolved class lookup
(unknown names fall back to WARRIOR). -/
structure CharacterData where
  characterClass : Option CharacterClass := none
  level : Option Nat := none
  experience : Option Int := none
  health : Option Int := none
  max_health : Option Int := none
  mana : Option Int := none
  max_mana : Option Int := none
  stamina : Option Int := none
  max_stamina : Option Int := none
  stats : Option Stats := none
  available_stat_points : Option Int := none
  skill_points : Option Int := none
  equipment : Option EquipTotals := none
deriving DecidableEq, Repr

/-- Character.from_dict: builds a fresh character through __init__ with the
default pool sizes, then overrides the private resource fields directly
with data.get(...) values — without routing through the clamping setters —
then loads stats, points and equipment. -/
def fromDict (d : CharacterData) : Character :=
  let char := characterInit (d.characterClass.getD .warrior)
    DEFAULT_HEALTH DEFAULT_MANA DEFAULT_STAMINA (d.level.getD 1) (d.experience.getD 0)
  let char :=
    { char with
        health := d.health.getD char.health
        maxHealth := d.max_health.getD char.maxHealth
        mana := d.mana.getD char.mana
        maxMana := d.max_mana.getD char.maxMana
        stamina := d.stamina.getD char.stamina
        maxStamina := d.max_stamina.getD char.maxStamina
        stats := d.stats.getD char.stats
        availableStatPoints := d.available_stat_points.getD 0
        skillPoints := d.skill_points.getD 0 }
  match d.equipment with
  | some eq =>
    { char with healthBonus := eq.healthBonus
                manaBonus := eq.manaBonus
                equipDefense := eq.defense
                equipWeapon := eq.weapon }
  | none => char

-- ===========================================================================
-- enemy.py : abilities and enemy state
-- ===========================================================================

inductive Behavior
  | aggressive | defensive | balanced | coward | berserker | tactical
deriving DecidableEq, Repr

/-- enemy.py EnemyAbility dataclass. -/
structure Ability where
  name : String
  damageMultiplier : ℚ
  effect : Option String
  cooldown : Int
  currentCooldown : Int
deriving DecidableEq, Repr

/-- EnemyAbility.is_ready: current_cooldown ≤ 0. -/
def Ability.isReady (a : Ability) : Bool := a.currentCooldown ≤ 0

/-- Enemy state: the fields of enemy.py Enemy the combat core reads and
writes (_max_health, _health, _damage, _defense, behavior, flag, abilities). -/
structure Enemy where
  maxHealth : Int
  health : Int
  damageBase : Int
  defense : Int
  behavior : Behavior
  isDefending : Bool
  abilities : List Ability
deriving DecidableEq, Repr

/-- Enemy.health_percentage: (health / max_health) * 100, 0 when
max_health is not positive. -/
def enemyHealthPercentage (e : Enemy) : ℚ :=
  if 0 < e.maxHealth then ((e.health : ℚ) / (e.maxHealth : ℚ)) * 100 else 0

/-- The Enemy.damage property: berserker bonus below 30% health, halved
while defending (both through int() truncation). -/
def enemyDamage (e : Enemy) : Int :=
  let base := e.damageBase
  let base := if e.behavior = Behavior.berserker ∧ enemyHealthPercentage e < 30
    then pyInt ((base : ℚ) * (3/2)) else base
  if e.isDefending then pyInt ((base : ℚ) * (1/2)) else base

/-- Enemy.effective_defense: doubled while defending. -/
def effectiveDefense (e : Enemy) : Int :=
  if e.isDefending then e.defense * 2 else e.defense

/-- Enemy.take_damage: deterministic — max(1, amount - effective_defense)
is subtracted from health, clamped at 0, and returned. No dodge roll. -/
def enemyTakeDamage (e : Enemy) (amount : Int) : Enemy × Int :=
  let actual := max 1 (amount - effectiveDefense e)
  ({ e with health := max 0 (e.health - actual) }, actual)

/-- Enemy.heal. -/
def enemyHeal (e : Enemy) (amount : Int) : Enemy :=
  { e with health := min e.maxHealth (e.health + amount) }

-- ===========================================================================
-- enemy.py : behavior engine (TACTICAL branch) and combat actions
-- ===========================================================================

/-- The TACTICAL branch of Enemy.choose_action. The code evaluates
random.random() twice — once against 0.3 for the ability test and a fresh
value against 0.4 for the defend test — so the two rolls are independent
parameters here (each is consulted only when its conjunction is reached,
exactly as the Python short-circuit evaluation does). -/
def chooseActionTactical (e : Enemy) (roll1 roll2 : ℚ) : String :=
  let readyAbilities := e.abilities.filter Ability.isReady
  if readyAbilities ≠ [] ∧ roll1 < 3/10 then "ability"
  else if enemyHealthPercentage e < 30 ∧ roll2 < 2/5 then "defend"
  else "attack"

/-- The TACTICAL policy as the specification words it: a single roll per
decision drives both threshold tests. Written from the spec only, for
comparison with chooseActionTactical. -/
def chooseActionTacticalSpec (e : Enemy) (roll : ℚ) : String :=
  let readyAbilities := e.abilities.filter Ability.isReady
  if readyAbilities ≠ [] ∧ roll < 3/10 then "ability"
  else if enemyHealthPercentage e < 30 ∧ roll < 2/5 then "defend"
  else "attack"

/-- Enemy.attack_target: clears the defending flag first, reads the damage
property, scales it by the uniform(0.9, 1.1) variation through int(), and
routes it into Character.take_damage. -/
def enemyAttackTarget (e : Enemy) (variation : ℚ) (c : Character)
    (dodgeRoll : ℚ) : Enemy × Character × Int :=
  let e1 := { e with isDefending := false }
  let damage := pyInt ((enemyDamage e1 : ℚ) * variation)
  let (c', actual) := characterTakeDamage c dodgeRoll damage
  (e1, c', actual)

/-- Indices of the ready abilities inside the ability list, in order:
the positions random.choice(ready_abilities) can pick. -/
def readyIdxs (l : List Ability) : List Nat :=
  (List.range l.length).filter (fun i => ((l.get? i).map Ability.isReady).getD false)

/-- Enemy.use_ability: returns the unchanged pair when no ability is ready;
otherwise the pick index selects among the ready abilities (random.choice),
the cooldown of the chosen ability is reset, damage is the damage property times
the multiplier through int(); a self_buff ability grows the base damage by
1.3 instead of hitting the target. The defending flag is never touched. -/
def enemyUseAbility (e : Enemy) (pick : Nat) (c : Character)
    (dodgeRoll : ℚ) : Enemy × Character × Bool :=
  let idxs := readyIdxs e.abilities
  if idxs = [] then (e, c, false)
  else
    let j := idxs.getD (pick % idxs.length) 0
    match e.abilities.get? j with
    | none => (e, c, false)
    | some a =>
      let a' := { a with currentCooldown := a.cooldown }
      let e1 := { e with abilities := e.abilities.set j a' }
      let damage := pyInt ((enemyDamage e1 : ℚ) * a.damageMultiplier)
      if a.effect = some "self_buff" then
        ({ e1 with damageBase := pyInt ((e1.damageBase : ℚ) * (13/10)) }, c, true)
      else (e1, (characterTakeDamage c dodgeRoll damage).1, true)

-- ===========================================================================
-- character.py Character.attack and combat.py unarmed attack
-- ===========================================================================

/-- Character.attack with the resolved weapon (the name lookup across
inventory and equipment is collapsed into the Option: none stands for the
InvalidWeaponError path, and a dead attacker raises CharacterDeadError).
On success: crit roll against get_crit_chance, crit damage through int(),
enemy takes the damage, and the defending flag is cleared. -/
def characterAttack (c : Character) (weapon : Option Weapon) (critRoll : ℚ)
    (e : Enemy) : Option (Character × Enemy × Int × Bool) :=
  if c.health ≤ 0 then none
  else match weapon with
  | none => none
  | some w =>
    let baseDamage := getAttackDamage c (some w)
    let isCritical := critRoll < getCritChance c
    let damage := if isCritical
      then pyInt ((baseDamage : ℚ) * CRIT_DAMAGE_MULTIPLIER)
      else baseDamage
    some ({ c with isDefending := false }, (enemyTakeDamage e damage).1,
      damage, isCritical)

/-- The pre-crit damage of the unarmed branch of
CombatEncounter.handle_player_attack: 5 + strength // 3. -/
def unarmedAttackBase (c : Character) : Int :=
  5 + Int.fdiv c.stats.strength 3

/-- The unarmed branch of CombatEncounter.handle_player_attack: computes
5 + strength // 3, applies the crit multiplier through int(), and sends it
to Enemy.take_damage. -/
def handlePlayerAttackUnarmed (c : Character) (critRoll : ℚ) (e : Enemy) :
    Enemy × Int :=
  let damage := unarmedAttackBase c
  let damage := if critRoll < getCritChance c
    then pyInt ((damage : ℚ) * CRIT_DAMAGE_MULTIPLIER)
    else damage
  ((enemyTakeDamage e damage).1, damage)

-- ===========================================================================
-- Resource-pool mutation language (for the clamping invariant)
-- ===========================================================================

/-- One resource-pool mutation on a player character: the operations
character.py performs on the pools. -/
inductive PoolOp
  | takeDamage (dodgeRoll : ℚ) (amount : Int)
  | heal (amount : Int)
  | restoreMana (amount : Int)
  | usePotion (healAmt manaAmt stamAmt : Option Int)
  | fullRestore
  | levelUp

/-- Apply one pool mutation. -/
def applyPoolOp (c : Character) : PoolOp → Character
  | .takeDamage r a => (characterTakeDamage c r a).1
  | .heal a => characterHeal c a
  | .restoreMana a => restoreMana c a
  | .usePotion h m s => usePotion c h m s
  | .fullRestore => fullRestore c
  | .levelUp => levelUp c

/-- Apply a sequence of pool mutations. -/
def applyPoolOps (c : Character) (ops : List PoolOp) : Character :=
  ops.foldl applyPoolOp c

/-- The pool invariant: every pool sits in [0, max], where max is the
max_health / max_mana property (base max plus equipment bonus) and
_max_stamina. -/
def PoolInv (c : Character) : Prop :=
  0 ≤ c.health ∧ c.health ≤ maxHealthProp c ∧
  0 ≤ c.mana ∧ c.mana ≤ maxManaProp c ∧
  0 ≤ c.stamina ∧ c.stamina ≤ c.maxStamina

/-- Basic well-formedness of a character: nonnegative pool caps, equipment
bonuses and growth stats. Every character the game constructs satisfies
this, and pool mutations preserve it. -/
def WF (c : Character) : Prop :=
  0 ≤ c.maxHealth ∧ 0 ≤ c.healthBonus ∧
  0 ≤ c.maxMana ∧ 0 ≤ c.manaBonus ∧
  0 ≤ c.maxStamina ∧
  0 ≤ c.stats.vitality ∧ 0 ≤ c.stats.intelligence ∧ 0 ≤ c.stats.agility

instance (c : Character) : Decidable (PoolInv c) := by
  unfold PoolInv; infer_instance

instance (c : Character) : Decidable (WF c) := by
  unfold WF; infer_instance

-- ===========================================================================
-- Helper lemmas
-- ===========================================================================

theorem setHealth_poolInv (c : Character) (v : Int) (hb : 0 ≤ c.healthBonus)
    (h : PoolInv c) : PoolInv (setHealth c v) := by
  unfold PoolInv maxHealthProp maxManaProp setHealth at *
  simp only at *
  omega

theorem setMana_poolInv (c : Character) (v : Int) (hb : 0 ≤ c.manaBonus)
    (h : PoolInv c) : PoolInv (setMana c v) := by
  unfold PoolInv maxHealthProp maxManaProp setMana at *
  simp only at *
  omega

theorem setStamina_poolInv (c : Character) (v : Int)
    (h : PoolInv c) : PoolInv (setStamina c v) := by
  unfold PoolInv maxHealthProp maxManaProp setStamina at *
  simp only at *
  omega

theorem applyPoolOp_preserves (c : Character) (op : PoolOp)
    (hwf : WF c) (hinv : PoolInv c) :
    PoolInv (applyPoolOp c op) ∧ WF (applyPoolOp c op) := by
  obtain ⟨h1, h2, h3, h4, h5, h6, h7, h8⟩ := hwf
  cases op with
  | takeDamage r a =>
    simp only [applyPoolOp, characterTakeDamage]
    split
    · exact ⟨hinv, h1, h2, h3, h4, h5, h6, h7, h8⟩
    · exact ⟨setHealth_poolInv c _ h2 hinv, h1, h2, h3, h4, h5, h6, h7, h8⟩
  | heal a =>
    exact ⟨setHealth_poolInv c _ h2 hinv, h1, h2, h3, h4, h5, h6, h7, h8⟩
  | restoreMana a =>
    exact ⟨setMana_poolInv c _ h4 hinv, h1, h2, h3, h4, h5, h6, h7, h8⟩
  | usePotion ha hm hs =>
    unfold applyPoolOp usePotion
    have step1 : PoolInv (match ha with
        | some v => setHealth c (c.health + v)
        | none => c) ∧ WF (match ha with
        | some v => setHealth c (c.health + v)
        | none => c) := by
      cases ha with
      | some v => exact ⟨setHealth_poolInv c _ h2 hinv, h1, h2, h3, h4, h5, h6, h7, h8⟩
      | none => exact ⟨hinv, h1, h2, h3, h4, h5, h6, h7, h8⟩
    set c1 := (match ha with
        | some v => setHealth c (c.health + v)
        | none => c) with hc1
    obtain ⟨i1, ⟨w1, w2, w3, w4, w5, w6, w7, w8⟩⟩ := step1
    have step2 : PoolInv (match hm with
        | some v => setMana c1 (c1.mana + v)
        | none => c1) ∧ WF (match hm with
        | some v => setMana c1 (c1.mana + v)
        | none => c1) := by
      cases hm with
      | some v => exact ⟨setMana_poolInv c1 _ w4 i1, w1, w2, w3, w4, w5, w6, w7, w8⟩
      | none => exact ⟨i1, w1, w2, w3, w4, w5, w6, w7, w8⟩
    set c2 := (match hm with
        | some v => setMana c1 (c1.mana + v)
        | none => c1) with hc2
    obtain ⟨i2, ⟨u1, u2, u3, u4, u5, u6, u7, u8⟩⟩ := step2
    cases hs with
    | some v => exact ⟨setStamina_poolInv c2 _ i2, u1, u2, u3, u4, u5, u6, u7, u8⟩
    | none => exact ⟨i2, u1, u2, u3, u4, u5, u6, u7, u8⟩
  | fullRestore =>
    unfold applyPoolOp fullRestore
    refine ⟨?_, h1, h2, h3, h4, h5, h6, h7, h8⟩
    unfold PoolInv maxHealthProp maxManaProp
    simp only
    omega
  | levelUp =>
    unfold applyPoolOp levelUp
    have hv : 0 ≤ Int.fdiv c.stats.vitality 5 := Int.fdiv_nonneg h6 (by norm_num)
    have hi : 0 ≤ Int.fdiv c.stats.intelligence 5 := Int.fdiv_nonneg h7 (by norm_num)
    have hg : 0 ≤ Int.fdiv c.stats.agility 5 := Int.fdiv_nonneg h8 (by norm_num)
    constructor
    · unfold PoolInv maxHealthProp maxManaProp
      simp only
      omega
    · unfold WF
      simp only
      omega

/--
C1: for every player character and every sequence of resource-pool
mutations (taking damage with any dodge roll, healing, restoring mana,
using potions, full_restore, level-up refills), each pool satisfies
0 ≤ current ≤ max afterward — every mutation is a total clamping function,
none raises. Holds for any well-formed character already inside bounds.
-/
theorem C1_pool_invariant (c : Character) (ops : List PoolOp)
    (hwf : WF c) (hinv : PoolInv c) : PoolInv (applyPoolOps c ops) := by
  induction ops generalizing c with
  | nil => exact hinv
  | cons op rest ih =>
    have h := applyPoolOp_preserves c op hwf hinv
    exact ih (applyPoolOp c op) h.2 h.1

/-- A concrete freshly created warrior, level 1. -/
def cW : Character := characterInit .warrior DEFAULT_HEALTH DEFAULT_MANA DEFAULT_STAMINA 1 0

/-- A concrete mutation sequence exercising every pool operation. -/
def opsW : List PoolOp :=
  [.takeDamage (1/2) 500, .heal 30, .restoreMana 9999,
   .usePotion (some 5) (some 5) (some 5), .fullRestore, .levelUp,
   .takeDamage 1 (-7), .heal (-100)]

/-- Witness for C1 at a concrete character and operation list. -/
theorem C1_pool_invariant_witness : PoolInv (applyPoolOps cW opsW) :=
  C1_pool_invariant cW opsW (by decide) (by decide)

/--
C3: Character.take_damage resolves as: on a successful dodge roll it
returns 0 with the state unchanged; otherwise it returns exactly
max(1, raw - defense) — at least 1 however large the defense — and health
drops by that amount, clamped at 0 (for any character whose health is
within its cap).
-/
theorem C3_take_damage (c : Character) (roll : ℚ) (amount : Int) :
    (roll < getDodgeChance c →
      characterTakeDamage c roll amount = (c, 0)) ∧
    (¬ roll < getDodgeChance c →
      (characterTakeDamage c roll amount).2 = max 1 (amount - getDefense c) ∧
      1 ≤ (characterTakeDamage c roll amount).2 ∧
      (c.health ≤ c.maxHealth →
        (characterTakeDamage c roll amount).1.health =
          max 0 (c.health - max 1 (amount - getDefense c)))) := by
  constructor
  · intro h
    simp [characterTakeDamage, h]
  · intro h
    refine ⟨?_, ?_, ?_⟩
    · simp [characterTakeDamage, h]
    · simp only [characterTakeDamage, if_neg h]
      exact le_max_left _ _
    · intro hh
      simp only [characterTakeDamage, if_neg h, setHealth]
      omega

/-- Witness for C3: the warrior cW (dodge chance 0.1 + 12/100 = 0.22):
a roll of 0.1 dodges, a roll of 0.5 does not. -/
theorem C3_take_damage_witness :
    characterTakeDamage cW (1/10) 40 = (cW, 0) ∧
    (characterTakeDamage cW (1/2) 40).2 = max 1 (40 - getDefense cW) ∧
    (characterTakeDamage cW (1/2) 40).1.health =
      max 0 (cW.health - max 1 (40 - getDefense cW)) := by
  have hd : (1:ℚ)/10 < getDodgeChance cW := by
    norm_num [getDodgeChance, DODGE_BASE_CHANCE, cW, characterInit, CLASS_STATS]
  have hnd : ¬ (1:ℚ)/2 < getDodgeChance cW := by
    norm_num [getDodgeChance, DODGE_BASE_CHANCE, cW, characterInit, CLASS_STATS]
  refine ⟨(C3_take_damage cW (1/10) 40).1 hd,
    ((C3_take_damage cW (1/2) 40).2 hnd).1,
    ((C3_take_damage cW (1/2) 40).2 hnd).2.2 (by decide)⟩

theorem rne_eq_low (x : ℚ) (n : ℤ) (h1 : (n:ℚ) ≤ x) (h2 : x < (n:ℚ) + 1/2) :
    rne x = n := by
  have hf : ⌊x⌋ = n := Int.floor_eq_iff.mpr ⟨h1, by linarith⟩
  unfold rne
  rw [hf, if_pos (by linarith)]

theorem rne_eq_high (x : ℚ) (n : ℤ) (h1 : (n:ℚ) + 1/2 < x) (h2 : x < (n:ℚ) + 1) :
    rne x = n + 1 := by
  have hf : ⌊x⌋ = n := Int.floor_eq_iff.mpr ⟨by linarith, h2⟩
  unfold rne
  rw [hf, if_neg (by linarith), if_pos (by linarith)]

theorem rne_eq_tie_odd (x : ℚ) (n : ℤ) (h : x = (n:ℚ) + 1/2) (ho : n % 2 = 1) :
    rne x = n + 1 := by
  have hf : ⌊x⌋ = n := Int.floor_eq_iff.mpr ⟨by linarith, by linarith⟩
  unfold rne
  rw [hf, if_neg (by rw [h]; norm_num), if_neg (by rw [h]; norm_num),
    if_neg (by omega)]

theorem roundB64pos_eq (q : ℚ) (k : ℕ) (m : ℤ) (hq : 0 < q)
    (h1 : (2:ℚ) ^ (52 - (k:ℤ)) ≤ q) (h2 : q < (2:ℚ) ^ (52 - (k:ℤ) + 1))
    (hm : rne (q * 2 ^ k) = m) :
    roundB64pos q = (m:ℚ) / 2 ^ k := by
  have hlog : Int.log 2 q = 52 - (k:ℤ) := by
    have ha := (Int.zpow_le_iff_le_log (by norm_num) hq).mp h1
    have hb := (Int.lt_zpow_iff_log_lt (by norm_num) hq).mp h2
    exact le_antisymm (Int.lt_add_one_iff.mp hb) ha
  unfold roundB64pos
  rw [if_neg (not_le.mpr hq), hlog]
  have e1 : 52 - (52 - (k:ℤ)) = (k:ℤ) := by ring
  have e2 : 52 - (k:ℤ) - 52 = -(k:ℤ) := by ring
  rw [e1, e2, zpow_natCast, hm, zpow_neg, zpow_natCast, div_eq_mul_inv]

theorem roundB64_of_pos (q : ℚ) (h : 0 < q) : roundB64 q = roundB64pos q := by
  unfold roundB64
  rw [if_neg (not_lt.mpr h.le)]

/-- 0.05 (and the quotients 5/100, 10/200) rounds to the double
7205759403792794 / 2^57 = 0.05000000000000000277... -/
theorem roundB64_one_twentieth :
    roundB64 ((5:ℚ)/100) = 7205759403792794 / 2 ^ 57 := by
  rw [roundB64_of_pos _ (by norm_num)]
  refine roundB64pos_eq _ 57 _ (by norm_num) (by norm_num) (by norm_num) ?_
  exact (rne_eq_high ((5:ℚ)/100 * 2 ^ 57) 7205759403792793 (by norm_num)
    (by norm_num)).trans (by norm_num)

/-- The sum of two copies of the 0.05 double is exactly representable:
it is the double 0.1 and rounding leaves it unchanged. -/
theorem roundB64_tenth :
    roundB64 ((7205759403792794:ℚ) / 2 ^ 56) = 7205759403792794 / 2 ^ 56 := by
  rw [roundB64_of_pos _ (by norm_num)]
  refine roundB64pos_eq _ 56 _ (by norm_num) (by norm_num) (by norm_num) ?_
  exact rne_eq_low ((7205759403792794:ℚ) / 2 ^ 56 * 2 ^ 56) 7205759403792794
    (by norm_num) (by norm_num)

/-- The exact sum of the 0.1 double and the 0.05 double lands halfway
between two doubles and ties-to-even rounds it UP to
5404319552844596 / 2^55 = 0.150000000000000022204... -/
theorem roundB64_crit_sum :
    roundB64 ((21617278211378382:ℚ) / 2 ^ 57) = 5404319552844596 / 2 ^ 55 := by
  rw [roundB64_of_pos _ (by norm_num)]
  refine roundB64pos_eq _ 55 _ (by norm_num) (by norm_num) (by norm_num) ?_
  exact (rne_eq_tie_odd ((21617278211378382:ℚ) / 2 ^ 57 * 2 ^ 55) 5404319552844595
    (by norm_num) (by norm_num)).trans (by norm_num)

/-- The literal 0.15 parses to the double 5404319552844595 / 2^55 =
0.1499999999999999944488..., one ulp BELOW the computed crit chance. -/
theorem roundB64_nearest_015 :
    roundB64 ((15:ℚ)/100) = 5404319552844595 / 2 ^ 55 := by
  rw [roundB64_of_pos _ (by norm_num)]
  refine roundB64pos_eq _ 55 _ (by norm_num) (by norm_num) (by norm_num) ?_
  exact rne_eq_low ((15:ℚ)/100 * 2 ^ 55) 5404319552844595 (by norm_num) (by norm_num)

theorem getCritChanceFloat_eval (c : Character)
    (hl : c.stats.luck = 5) (ha : c.stats.agility = 10) :
    getCritChanceFloat c = 5404319552844596 / 2 ^ 55 := by
  unfold getCritChanceFloat
  rw [hl, ha,
    show ((5:ℤ):ℚ) / 100 = 5/100 from by norm_num,
    show ((10:ℤ):ℚ) / 200 = 5/100 from by norm_num,
    roundB64_one_twentieth,
    show (7205759403792794:ℚ) / 2 ^ 57 + 7205759403792794 / 2 ^ 57 =
      7205759403792794 / 2 ^ 56 from by norm_num,
    roundB64_tenth,
    show (7205759403792794:ℚ) / 2 ^ 56 + 7205759403792794 / 2 ^ 57 =
      21617278211378382 / 2 ^ 57 from by norm_num]
  exact roundB64_crit_sum

/-- A character with luck 5 and agility 10. -/
def c9W : Character := { cW with stats := ⟨15, 10, 11, 10, 5⟩ }

/--
C9 counterexample: for a character with luck 5 and agility 10 the program
evaluates get_crit_chance in binary64 to the double 5404319552844596/2^55
= 0.150000000000000022..., which differs both from the rational 0.15 and
from the double the literal 0.15 denotes (5404319552844595/2^55): the
computed crit chance is not exactly 0.15.
-/
theorem C9_crit_chance_counterexample :
    getCritChanceFloat c9W = 5404319552844596 / 2 ^ 55 ∧
    roundB64 ((15:ℚ)/100) = 5404319552844595 / 2 ^ 55 ∧
    getCritChanceFloat c9W ≠ 15/100 ∧
    getCritChanceFloat c9W ≠ roundB64 ((15:ℚ)/100) := by
  have h := getCritChanceFloat_eval c9W rfl rfl
  refine ⟨h, roundB64_nearest_015, ?_, ?_⟩
  · rw [h]
    norm_num
  · rw [h, roundB64_nearest_015]
    norm_num

/--
C9 (amended): get_crit_chance computes BASE_CRIT + luck/100 + agility/200,
which for luck 5 and agility 10 equals 0.15 under exact arithmetic; but
the program evaluates the expression in IEEE-754 binary64, where the
result is the double 5404319552844596/2^55 = 0.150000000000000022..., the
double immediately above 0.15 — not exactly 0.15.
-/
theorem C9_crit_chance (c : Character)
    (hl : c.stats.luck = 5) (ha : c.stats.agility = 10) :
    getCritChance c =
      BASE_CRIT_CHANCE + (c.stats.luck : ℚ) / 100 + (c.stats.agility : ℚ) / 200 ∧
    getCritChance c = 15/100 ∧
    getCritChanceFloat c = 5404319552844596 / 2 ^ 55 ∧
    getCritChanceFloat c ≠ 15/100 := by
  have hfloat := getCritChanceFloat_eval c hl ha
  refine ⟨rfl, ?_, hfloat, ?_⟩
  · unfold getCritChance BASE_CRIT_CHANCE
    rw [hl, ha]
    norm_num
  · rw [hfloat]
    norm_num

/-- Witness for the amended C9 at the concrete character c9W. -/
theorem C9_crit_chance_witness :
    getCritChance c9W = 15/100 ∧
    getCritChanceFloat c9W = 5404319552844596 / 2 ^ 55 :=
  ⟨(C9_crit_chance c9W rfl rfl).2.1, (C9_crit_chance c9W rfl rfl).2.2.1⟩

/--
C10: Enemy.take_damage is deterministic (no dodge, no randomness): it
returns exactly max(1, amount - effective_defense) — effective defense
doubling while defending — and health drops by that amount, clamped at 0.
-/
theorem C10_enemy_take_damage (e : Enemy) (amount : Int) :
    (enemyTakeDamage e amount).2 = max 1 (amount - effectiveDefense e) ∧
    1 ≤ (enemyTakeDamage e amount).2 ∧
    (enemyTakeDamage e amount).1.health =
      max 0 (e.health - max 1 (amount - effectiveDefense e)) ∧
    effectiveDefense e = (if e.isDefending then e.defense * 2 else e.defense) := by
  exact ⟨rfl, le_max_left _ _, rfl, rfl⟩

theorem getStat_setStat (s : Stats) (n : String) (v : Int)
    (h : n ∈ validStats) : getStat (setStat s n v) n = v := by
  simp only [validStats, List.mem_cons, List.not_mem_nil, or_false] at h
  rcases h with h | h | h | h | h <;> subst h <;> simp [getStat, setStat]

/--
C7: allocate_stat_point succeeds (stat +1, available points -1) exactly
when points are available and the lowercased name is a recognized stat;
otherwise the state is unchanged and the two failure modes are reported
distinctly (never via an exception — the function is total).
-/
theorem C7_allocate_stat_point (c : Character) (name : String) :
    ((allocateStatPoint c name).2 = AllocResult.ok ↔
      0 < c.availableStatPoints ∧ pyLower name ∈ validStats) ∧
    ((allocateStatPoint c name).2 ≠ AllocResult.ok →
      (allocateStatPoint c name).1 = c) ∧
    (c.availableStatPoints ≤ 0 →
      (allocateStatPoint c name).2 = AllocResult.noPoints) ∧
    (0 < c.availableStatPoints → pyLower name ∉ validStats →
      (allocateStatPoint c name).2 = AllocResult.invalidStat) ∧
    ((allocateStatPoint c name).2 = AllocResult.ok →
      (allocateStatPoint c name).1.availableStatPoints =
        c.availableStatPoints - 1 ∧
      getStat (allocateStatPoint c name).1.stats (pyLower name) =
        getStat c.stats (pyLower name) + 1) ∧
    AllocResult.noPoints ≠ AllocResult.invalidStat := by
  by_cases hp : c.availableStatPoints ≤ 0
  · simp only [allocateStatPoint, if_pos hp]
    refine ⟨by simp; omega, fun _ => trivial, fun _ => trivial,
      fun hq _ => absurd hq (by omega), by simp, by simp⟩
  · by_cases hmem : pyLower name ∈ validStats
    · simp only [allocateStatPoint, if_neg hp, if_pos hmem]
      refine ⟨by simp [hmem]; omega, by simp, fun hq => absurd hq hp, ?_, ?_, by simp⟩
      · intro _ hq
        exact absurd hmem hq
      · intro _
        exact ⟨trivial, getStat_setStat c.stats (pyLower name) _ hmem⟩
    · simp only [allocateStatPoint, if_neg hp, if_neg hmem]
      refine ⟨by simp [hmem], fun _ => trivial, fun hq => absurd hq hp,
        fun _ _ => trivial, by simp, by simp⟩

/-- A warrior with three stat points to spend. -/
def c7W : Character := { cW with availableStatPoints := 3 }

/-- Witness for C7: success on "Strength" with points available, distinct
failures without points and on an unknown stat name. -/
theorem C7_allocate_stat_point_witness :
    (allocateStatPoint c7W "Strength").2 = AllocResult.ok ∧
    (allocateStatPoint c7W "Strength").1.availableStatPoints =
      c7W.availableStatPoints - 1 ∧
    getStat (allocateStatPoint c7W "Strength").1.stats (pyLower "Strength") =
      getStat c7W.stats (pyLower "Strength") + 1 ∧
    (allocateStatPoint cW "Strength").2 = AllocResult.noPoints ∧
    (allocateStatPoint c7W "Dexterity").2 = AllocResult.invalidStat := by
  have hok := (C7_allocate_stat_point c7W "Strength").1.mpr (by decide)
  refine ⟨hok, ?_, ?_,
    (C7_allocate_stat_point cW "Strength").2.2.1 (by decide),
    (C7_allocate_stat_point c7W "Dexterity").2.2.2.1 (by decide) (by decide)⟩
  · exact ((C7_allocate_stat_point c7W "Strength").2.2.2.2.1 hok).1
  · exact ((C7_allocate_stat_point c7W "Strength").2.2.2.2.1 hok).2

/-- Save data carrying a current health above its stored maximum. -/
def d2 : CharacterData := { health := some 100, max_health := some 50 }

/--
C2 counterexample: Character.from_dict performs no clamping — deserializing
a dictionary with health 100 and max_health 50 yields a character whose
current health (100) strictly exceeds its maximum (50), both as the stored
cap and as the equipment-inclusive property.
-/
theorem C2_from_dict_counterexample :
    (fromDict d2).health = 100 ∧ (fromDict d2).maxHealth = 50 ∧
    maxHealthProp (fromDict d2) = 50 ∧
    ¬ (fromDict d2).health ≤ maxHealthProp (fromDict d2) := by
  refine ⟨by decide, by decide, by decide, by decide⟩

/--
C2 (amended): from_dict writes the stored current and maximum pool
values directly into the private fields, bypassing the clamping setters:
the stored health/max_health pair is reproduced verbatim, so a current
value above its maximum leaks through unclamped.
-/
theorem C2_from_dict_amended (d : CharacterData) (hv mv : Int)
    (hh : d.health = some hv) (hm : d.max_health = some mv) :
    (fromDict d).health = hv ∧ (fromDict d).maxHealth = mv := by
  cases hde : d.equipment with
  | none => simp [fromDict, hh, hm, hde]
  | some et => simp [fromDict, hh, hm, hde]

/-- Witness for the amended C2 at the concrete dictionary d2. -/
theorem C2_from_dict_amended_witness :
    (fromDict d2).health = 100 ∧ (fromDict d2).maxHealth = 50 :=
  C2_from_dict_amended d2 100 50 rfl rfl

/-- A neutral concrete enemy. -/
def eW : Enemy :=
  { maxHealth := 100, health := 100, damageBase := 10, defense := 2,
    behavior := .balanced, isDefending := false, abilities := [] }

/--
C4 counterexample: for the default warrior (strength 15), the combat
orchestrator unarmed attack deals 5 + 15 // 3 = 10 before the crit
multiplier, while the claimed formula 5 + floor(strength/2) gives 12
(which is what get_attack_damage computes).
-/
theorem C4_unarmed_counterexample :
    unarmedAttackBase cW = 10 ∧ getAttackDamage cW none = 12 ∧
    ¬ unarmedAttackBase cW = 5 + Int.fdiv cW.stats.strength 2 := by
  refine ⟨by decide, by decide, by decide⟩

/--
C4 (amended): get_attack_damage is weapon base damage (default 5 when no
weapon is given and none is equipped) + floor(strength/2); the combat
orchestrator unarmed branch instead deals 5 + floor(strength/3) before
any crit multiplier.
-/
theorem C4_attack_damage (c : Character) (w : Weapon) (critRoll : ℚ)
    (e : Enemy) :
    getAttackDamage c (some w) = w.damage.getD 5 + Int.fdiv c.stats.strength 2 ∧
    (c.equipWeapon = none →
      getAttackDamage c none = 5 + Int.fdiv c.stats.strength 2) ∧
    unarmedAttackBase c = 5 + Int.fdiv c.stats.strength 3 ∧
    (¬ critRoll < getCritChance c →
      (handlePlayerAttackUnarmed c critRoll e).2 =
        5 + Int.fdiv c.stats.strength 3) := by
  refine ⟨rfl, ?_, rfl, ?_⟩
  · intro h
    simp [getAttackDamage, h]
  · intro h
    simp [handlePlayerAttackUnarmed, unarmedAttackBase, h]

/-- Witness for the amended C4: the warrior cW (strength 15, crit chance
0.16) with a 20-damage weapon, unarmed with a non-crit roll of 1. -/
theorem C4_attack_damage_witness :
    getAttackDamage cW (some (Weapon.mk (some 20))) =
      (Weapon.mk (some 20)).damage.getD 5 + Int.fdiv cW.stats.strength 2 ∧
    getAttackDamage cW none = 5 + Int.fdiv cW.stats.strength 2 ∧
    (handlePlayerAttackUnarmed cW 1 eW).2 = 5 + Int.fdiv cW.stats.strength 3 := by
  have h := C4_attack_damage cW (Weapon.mk (some 20)) 1 eW
  refine ⟨h.1, h.2.1 (by decide), h.2.2.2 ?_⟩
  norm_num [getCritChance, BASE_CRIT_CHANCE, cW, characterInit, CLASS_STATS]

/-- A ready Power Strike ability (cooldown elapsed). -/
def abilityPS : Ability :=
  { name := "Power Strike", damageMultiplier := 3/2, effect := none,
    cooldown := 3, currentCooldown := 0 }

/-- A defending enemy holding one ready ability. -/
def eDef : Enemy := { eW with isDefending := true, abilities := [abilityPS] }

/--
C6 counterexample: a defending enemy that resolves an ability (an
offensive action) is still flagged as defending afterwards —
Enemy.use_ability never clears the flag.
-/
theorem C6_defend_flag_counterexample :
    eDef.isDefending = true ∧
    (enemyUseAbility eDef 0 cW 1).2.2 = true ∧
    (enemyUseAbility eDef 0 cW 1).1.isDefending = true := by
  refine ⟨rfl, by decide, by decide⟩

/--
C6 (amended): the defending flag is cleared when its owner resolves an
attack (the player weapon attack and the enemy natural attack both
clear it), but Enemy.use_ability leaves the flag untouched — a defending
enemy that resolves an ability is still flagged as defending.
-/
theorem C6_defend_flag (c : Character) (w : Weapon) (critRoll : ℚ)
    (e : Enemy) (variation dodgeRoll : ℚ) (pick : Nat) :
    (enemyAttackTarget e variation c dodgeRoll).1.isDefending = false ∧
    (enemyUseAbility e pick c dodgeRoll).1.isDefending = e.isDefending ∧
    (∀ res, characterAttack c (some w) critRoll e = some res →
      res.1.isDefending = false) := by
  refine ⟨rfl, ?_, ?_⟩
  · unfold enemyUseAbility
    by_cases hi : readyIdxs e.abilities = []
    · simp [hi]
    · simp only [hi, if_neg, ite_false]
      rcases hg : e.abilities.get?
          ((readyIdxs e.abilities).getD (pick % (readyIdxs e.abilities).length) 0)
        with _ | a
      · simp [hg]
      · by_cases he : a.effect = some "self_buff" <;> simp [hg, he]
  · intro res hres
    unfold characterAttack at hres
    split at hres
    · exact absurd hres (by simp)
    · simp only [Option.some.injEq] at hres
      rw [← hres]

/-- Witness for the amended C6 at concrete combatants. The attack of the
dead-checked warrior with a 20-damage weapon and crit roll 1 resolves to
damage 27 without a crit. -/
theorem C6_defend_flag_witness :
    (enemyAttackTarget eDef 1 cW 1).1.isDefending = false ∧
    (enemyUseAbility eDef 0 cW 1).1.isDefending = eDef.isDefending ∧
    (({ cW with isDefending := false }, (enemyTakeDamage eW 27).1, 27, false) :
        Character × Enemy × Int × Bool).1.isDefending = false := by
  have h := C6_defend_flag cW (Weapon.mk (some 20)) 1 eDef 1 1 0
  have h' := C6_defend_flag cW (Weapon.mk (some 20)) 1 eW 1 1 0
  refine ⟨h.1, h.2.1, h'.2.2 _ ?_⟩
  have hcrit : ¬ (1:ℚ) < getCritChance cW := by
    norm_num [getCritChance, BASE_CRIT_CHANCE, cW, characterInit, CLASS_STATS]
  have hd : getAttackDamage cW (some (Weapon.mk (some 20))) = 27 := by decide
  simp only [characterAttack, if_neg (show ¬ cW.health ≤ 0 by decide), hd,
    if_neg hcrit, decide_eq_false hcrit]

/-- A tactical enemy at 20% health with one ready ability. -/
def eT : Enemy :=
  { maxHealth := 100, health := 20, damageBase := 10, defense := 0,
    behavior := .tactical, isDefending := false, abilities := [abilityPS] }

/--
C8 counterexample: the TACTICAL choice is not a function of a single roll —
with the same first roll 0.35, the decision is "attack" when the second,
independently drawn roll is 0.5 and "defend" when it is 0.35; the
single-roll policy of the claim would always answer "defend" here.
-/
theorem C8_tactical_counterexample :
    chooseActionTactical eT (7/20) (1/2) = "attack" ∧
    chooseActionTactical eT (7/20) (7/20) = "defend" ∧
    chooseActionTacticalSpec eT (7/20) = "defend" := by
  refine ⟨?_, ?_, ?_⟩ <;>
    norm_num [chooseActionTactical, chooseActionTacticalSpec,
      enemyHealthPercentage, eT, abilityPS, Ability.isReady, List.filter]

/--
C8 (amended): the TACTICAL policy draws a fresh roll for each threshold
test: ability exactly when one is ready and the first roll is < 0.3;
otherwise defend exactly when health is below 30% and the second roll is
< 0.4; otherwise attack.
-/
theorem C8_tactical_policy (e : Enemy) (roll1 roll2 : ℚ) :
    (chooseActionTactical e roll1 roll2 = "ability" ↔
      e.abilities.filter Ability.isReady ≠ [] ∧ roll1 < 3/10) ∧
    (chooseActionTactical e roll1 roll2 = "defend" ↔
      ¬(e.abilities.filter Ability.isReady ≠ [] ∧ roll1 < 3/10) ∧
      (enemyHealthPercentage e < 30 ∧ roll2 < 2/5)) ∧
    (chooseActionTactical e roll1 roll2 = "attack" ↔
      ¬(e.abilities.filter Ability.isReady ≠ [] ∧ roll1 < 3/10) ∧
      ¬(enemyHealthPercentage e < 30 ∧ roll2 < 2/5)) := by
  have hC : chooseActionTactical e roll1 roll2 =
      (if e.abilities.filter Ability.isReady ≠ [] ∧ roll1 < 3/10 then "ability"
       else if enemyHealthPercentage e < 30 ∧ roll2 < 2/5 then "defend"
       else "attack") := rfl
  rw [hC]
  split_ifs with h1 h2
  · exact ⟨iff_of_true rfl h1,
      iff_of_false (by decide) (fun hc => hc.1 h1),
      iff_of_false (by decide) (fun hc => hc.1 h1)⟩
  · exact ⟨iff_of_false (by decide) h1,
      iff_of_true rfl ⟨h1, h2⟩,
      iff_of_false (by decide) (fun hc => hc.2 h2)⟩
  · exact ⟨iff_of_false (by decide) h1,
      iff_of_false (by decide) (fun hc => h2 hc.2),
      iff_of_true rfl ⟨h1, h2⟩⟩

theorem xpToNextLevel_pos (level : Nat) : 0 < xpToNextLevel level := by
  unfold xpToNextLevel BASE_XP_REQUIREMENT
  have h2 : 0 < 2 ^ (level - 1) := pow_pos (by norm_num) _
  have h3 : 2 ^ (level - 1) ≤ 100 * 3 ^ (level - 1) := by
    have h4 := Nat.pow_le_pow_left (show 2 ≤ 3 by norm_num) (level - 1)
    omega
  have h5 := (Nat.one_le_div_iff h2).mpr h3
  exact Int.ofNat_pos.mpr (by omega)

theorem levelLoop_stuck (fuel : Nat) (c : Character) (g : List Nat)
    (h : c.experience < xpToNextLevel c.level) : levelLoop fuel c g = (c, g) := by
  cases fuel with
  | zero => rfl
  | succ f =>
    unfold levelLoop
    rw [if_neg (fun hc => absurd hc.1 (not_le.mpr h))]

theorem levelLoop_one_shot (f : Nat) (c : Character)
    (h0 : c.experience = 0) (hlt : c.level < MAX_LEVEL) :
    levelLoop (f + 1) { c with experience := c.experience + xpToNextLevel c.level } [] =
      (levelUp c, [c.level + 1]) := by
  unfold levelLoop
  rw [if_pos ?hc]
  case hc =>
    constructor
    · show c.experience + xpToNextLevel c.level ≥ xpToNextLevel c.level
      have := xpToNextLevel_pos c.level
      omega
    · exact hlt
  show levelLoop f
    (levelUp { c with experience :=
      c.experience + xpToNextLevel c.level - xpToNextLevel c.level }) [c.level + 1] =
    (levelUp c, [c.level + 1])
  rw [show c.experience + xpToNextLevel c.level - xpToNextLevel c.level =
    c.experience from by omega]
  refine levelLoop_stuck f (levelUp c) _ ?_
  show c.experience < xpToNextLevel (c.level + 1)
  rw [h0]
  exact xpToNextLevel_pos _

theorem levelLoop_level_le (fuel : Nat) : ∀ (c : Character) (g : List Nat),
    c.level ≤ MAX_LEVEL → (levelLoop fuel c g).1.level ≤ MAX_LEVEL := by
  induction fuel with
  | zero =>
    intro c g h
    exact h
  | succ f ih =>
    intro c g h
    unfold levelLoop
    split
    · next hcond =>
      refine ih _ _ ?_
      show c.level + 1 ≤ MAX_LEVEL
      have h2 : c.level < MAX_LEVEL := hcond.2
      omega
    · exact h

/--
C5: gain_experience with a nonpositive amount is a no-op returning the
empty level list; from experience 0 below the level cap, gaining exactly
xp_to_next_level yields exactly one level-up and experience 0; each
level-up grants STAT_POINTS_PER_LEVEL stat points and 1 skill point, grows
max health by 10 + vitality/5, max mana by 5 + intelligence/5, max stamina
by 5 + agility/5 (integer division) and refills all three pools; the level
never exceeds MAX_LEVEL, and at the cap excess experience is retained.
-/
theorem C5_gain_experience :
    (∀ (c : Character) (amount : Int), amount ≤ 0 →
      gainExperience c amount = (c, [])) ∧
    (∀ c : Character, c.experience = 0 → c.level < MAX_LEVEL →
      gainExperience c (xpToNextLevel c.level) = (levelUp c, [c.level + 1]) ∧
      (gainExperience c (xpToNextLevel c.level)).1.experience = 0) ∧
    (∀ c : Character,
      (levelUp c).availableStatPoints =
        c.availableStatPoints + STAT_POINTS_PER_LEVEL ∧
      (levelUp c).skillPoints = c.skillPoints + 1 ∧
      (levelUp c).maxHealth = c.maxHealth + 10 + Int.fdiv c.stats.vitality 5 ∧
      (levelUp c).maxMana = c.maxMana + 5 + Int.fdiv c.stats.intelligence 5 ∧
      (levelUp c).maxStamina = c.maxStamina + 5 + Int.fdiv c.stats.agility 5 ∧
      (levelUp c).health = (levelUp c).maxHealth ∧
      (levelUp c).mana = (levelUp c).maxMana ∧
      (levelUp c).stamina = (levelUp c).maxStamina) ∧
    (∀ (c : Character) (amount : Int), c.level ≤ MAX_LEVEL →
      (gainExperience c amount).1.level ≤ MAX_LEVEL) ∧
    (∀ (c : Character) (amount : Int), c.level = MAX_LEVEL → 0 < amount →
      gainExperience c amount = ({ c with experience := c.experience + amount }, [])) := by
  refine ⟨?_, ?_, ?_, ?_, ?_⟩
  · intro c amount h
    unfold gainExperience
    rw [if_pos h]
  · intro c h0 hlt
    have hpos := xpToNextLevel_pos c.level
    obtain ⟨f, hf⟩ : ∃ f, MAX_LEVEL - c.level = f + 1 :=
      ⟨MAX_LEVEL - c.level - 1, by omega⟩
    have hmain : gainExperience c (xpToNextLevel c.level) =
        (levelUp c, [c.level + 1]) := by
      unfold gainExperience
      rw [if_neg (by omega), hf]
      exact levelLoop_one_shot f c h0 hlt
    refine ⟨hmain, ?_⟩
    rw [hmain]
    exact h0
  · intro c
    exact ⟨rfl, rfl, rfl, rfl, rfl, rfl, rfl, rfl⟩
  · intro c amount hle
    unfold gainExperience
    split
    · exact hle
    · exact levelLoop_level_le _ _ _ hle
  · intro c amount hmax hpos
    unfold gainExperience
    rw [if_neg (by omega), show MAX_LEVEL - c.level = 0 from by omega]
    rfl

/-- The warrior at the level cap. -/
def cMax : Character := { cW with level := MAX_LEVEL, experience := 7 }

/-- Witness for C5: concrete no-op gain, a one-level gain from the exact
threshold at level 1, the cap bound, and retention of excess at the cap. -/
theorem C5_gain_experience_witness :
    gainExperience cW (-3) = (cW, []) ∧
    gainExperience cW (xpToNextLevel cW.level) = (levelUp cW, [cW.level + 1]) ∧
    (gainExperience cMax 50).1.level ≤ MAX_LEVEL ∧
    gainExperience cMax 50 = ({ cMax with experience := cMax.experience + 50 }, []) :=
  ⟨C5_gain_experience.1 cW (-3) (by decide),
   (C5_gain_experience.2.1 cW rfl (by decide)).1,
   C5_gain_experience.2.2.2.1 cMax 50 (by decide),
   C5_gain_experience.2.2.2.2 cMax 50 (by decide) (by decide)⟩

end RobShire
